import Mathlib

/-!
Verification development for the SBS2 inverse-modeling core
(brede/data/sbs2.py).

The Matrix Asset Provider (file download and CSV parsing) is external to
the core; it is modelled by an environment `Env n` supplying the three raw
matrices per hardware identifier, where `n` is the source (vertex) count of
the reduced cortical mesh. Matrix entries are exact rationals. The SciPy
Moore-Penrose routine `pinv` is an external numerical routine applied to
channels-by-channels matrices; it is modelled as an abstract function
parameter passed to `inverse_model`, the same function on the code side and
the spec side. Exceptions are modelled by `Except Err`.
-/

/-- Error taxonomy of the spec: a Python ValueError raised by the core maps
to `invalidArgument`; a failure of the Matrix Asset Provider (missing or
corrupt raw asset, e.g. a read_csv IOError) maps to `dataUnavailable`. -/
inductive Err where
  | invalidArgument
  | dataUnavailable
deriving DecidableEq

/-- Labeled matrix, modelling brede.core.matrix.Matrix (a pandas DataFrame
wrapper): row labels (`index`), column labels (`columns`) and the numeric
`values`. -/
structure LMatrix (m n : ℕ) where
  index : List String
  columns : List String
  values : Matrix (Fin m) (Fin n) ℚ

/-- Transpose of a labeled matrix (pandas `.T`): swaps labels and
transposes the values. -/
def LMatrix.T {m n : ℕ} (A : LMatrix m n) : LMatrix n m :=
  ⟨A.columns, A.index, A.values.transpose⟩

/-- Shape of a labeled matrix (pandas `.shape`): rows times columns. -/
def LMatrix.shape {m n : ℕ} (_ : LMatrix m n) : ℕ × ℕ := (m, n)

/-- Default positional labels pandas assigns when a table is read with
header=None: 0, 1, 2, ... -/
def defaultLabels (k : ℕ) : List String := (List.range k).map toString

/-- The Matrix Asset Provider (external collaborator): for a hardware
identifier it may supply a raw forward matrix (stored channels x sources,
with 14 channels), a raw spatial-coherence matrix and its precomputed
inverse (both sources x sources). `none` models a missing or corrupt
asset. -/
structure Env (n : ℕ) where
  rawForward : String → Option (Matrix (Fin 14) (Fin n) ℚ)
  rawCoherence : String → Option (Matrix (Fin n) (Fin n) ℚ)
  rawInverseCoherence : String → Option (Matrix (Fin n) (Fin n) ℚ)

/-- Reading a raw asset: a present asset is returned, a missing one
surfaces as `dataUnavailable`. -/
def readAsset {m k : ℕ} (asset : Option (Matrix (Fin m) (Fin k) ℚ)) :
    Except Err (Matrix (Fin m) (Fin k) ℚ) :=
  match asset with
  | some a => Except.ok a
  | none => Except.error Err.dataUnavailable

/-- Hardcoded electrode list for the emotiv hardware (sbs2.py lines 50-51). -/
def SBS2_ELECTRODES_EMOTIV : List String :=
  ["P7", "FC6", "T7", "P8", "O2", "O1", "FC5",
   "F3", "F4", "T8", "F7", "F8", "AF4", "AF3"]

/-- Hardcoded electrode list for the emocap hardware (sbs2.py lines 53-54). -/
def SBS2_ELECTRODES_EMOCAP : List String :=
  ["TP10", "Fz", "P3", "Cz", "C4", "TP9", "Pz", "P4",
   "F3", "C3", "O1", "F4", "Fpz", "O2"]

/-- SBS2Data.electrode_names (sbs2.py lines 130-139): dispatch on the
hardware string, raising ValueError for anything else. -/
def electrode_names (hardware : String) : Except Err (List String) :=
  if hardware = "emotiv" then Except.ok SBS2_ELECTRODES_EMOTIV
  else if hardware = "emocap" then Except.ok SBS2_ELECTRODES_EMOCAP
  else Except.error Err.invalidArgument

/-- SBS2Data.forward_model (sbs2.py lines 141-180): read the raw
channels x sources matrix, set its row labels to the electrode names,
multiply every element by 1000000, and return the transpose. -/
def forward_model {n : ℕ} (env : Env n) (hardware : String) :
    Except Err (LMatrix n 14) :=
  match readAsset (env.rawForward hardware) with
  | Except.error e => Except.error e
  | Except.ok raw =>
    match electrode_names hardware with
    | Except.error e => Except.error e
    | Except.ok names =>
      let matrix : LMatrix 14 n :=
        ⟨names, defaultLabels n, Matrix.of fun c s => raw c s * 1000000⟩
      Except.ok matrix.T

/-- SBS2Data.spatial_coherence (sbs2.py lines 182-218): pure passthrough of
the raw sources x sources coherence asset, default labels on both axes. -/
def spatial_coherence {n : ℕ} (env : Env n) (hardware : String) :
    Except Err (LMatrix n n) :=
  match readAsset (env.rawCoherence hardware) with
  | Except.error e => Except.error e
  | Except.ok raw => Except.ok ⟨defaultLabels n, defaultLabels n, raw⟩

/-- SBS2Data.inverse_spatial_coherence (sbs2.py lines 220-252): pure
passthrough of the raw inverse-coherence asset. -/
def inverse_spatial_coherence {n : ℕ} (env : Env n) (hardware : String) :
    Except Err (LMatrix n n) :=
  match readAsset (env.rawInverseCoherence hardware) with
  | Except.error e => Except.error e
  | Except.ok raw => Except.ok ⟨defaultLabels n, defaultLabels n, raw⟩

/-- Method dispatch of SBS2Data.inverse_model (sbs2.py lines 343-360):
given the forward-model values F (sources x channels), form the channel
identity, and compute the estimator selected by the method string. For
minimumnorm: pinv(Ft F + (inv_beta/inv_alpha) I) Ft, reading no coherence
asset. For LORETA: FC = L F, Sigma_inv = inv_alpha (Ft FC) + inv_beta I,
result inv_alpha (pinv(Sigma_inv) FCt). Any other method is a ValueError. -/
def estimator {n : ℕ} (env : Env n)
    (pinv : Matrix (Fin 14) (Fin 14) ℚ → Matrix (Fin 14) (Fin 14) ℚ)
    (hardware method : String) (inv_alpha inv_beta : ℚ)
    (forward : Matrix (Fin n) (Fin 14) ℚ) :
    Except Err (Matrix (Fin 14) (Fin n) ℚ) :=
  let identity : Matrix (Fin 14) (Fin 14) ℚ := 1
  if method = "minimumnorm" then
    Except.ok
      (pinv (forward.transpose * forward +
          (inv_beta / inv_alpha) • identity) * forward.transpose)
  else if method = "LORETA" then
    match spatial_coherence env hardware with
    | Except.error e => Except.error e
    | Except.ok coherenceM =>
      let coherence := coherenceM.values
      let forward_and_coherence := coherence * forward
      let sigma_inv :=
        inv_alpha • (forward.transpose * forward_and_coherence) +
          inv_beta • identity
      Except.ok
        (inv_alpha • (pinv sigma_inv * forward_and_coherence.transpose))
  else Except.error Err.invalidArgument

/-- SBS2Data.inverse_model (sbs2.py lines 285-364): build the forward
model, dispatch on the method string via `estimator`, and label the rows of
the result with the electrode names. `pinv` is the external SciPy
Moore-Penrose routine on channels x channels matrices, passed as a
parameter. -/
def inverse_model {n : ℕ} (env : Env n)
    (pinv : Matrix (Fin 14) (Fin 14) ℚ → Matrix (Fin 14) (Fin 14) ℚ)
    (hardware method : String) (inv_alpha inv_beta : ℚ) :
    Except Err (LMatrix 14 n) :=
  match forward_model env hardware with
  | Except.error e => Except.error e
  | Except.ok forwardM =>
    match estimator env pinv hardware method inv_alpha inv_beta
        forwardM.values with
    | Except.error e => Except.error e
    | Except.ok inverse =>
      match electrode_names hardware with
      | Except.error e => Except.error e
      | Except.ok names => Except.ok ⟨names, defaultLabels n, inverse⟩

/-- Spec-side formula for the minimum-norm estimator, following the words
of the spec: with F the ForwardModel (sources x channels) and I the
identity on the channel dimension, inverse = pinv(Ft F + (beta/alpha) I)
Ft. -/
def specMinimumNormInverse {n : ℕ}
    (pinv : Matrix (Fin 14) (Fin 14) ℚ → Matrix (Fin 14) (Fin 14) ℚ)
    (F : Matrix (Fin n) (Fin 14) ℚ) (alpha beta : ℚ) :
    Matrix (Fin 14) (Fin n) ℚ :=
  pinv (F.transpose * F + (beta / alpha) • 1) * F.transpose

/-- Spec-side formula for the LORETA estimator, following the words of the
spec: FC = L F, Sigma_inv = alpha (Ft FC) + beta I, and
inverse = alpha pinv(Sigma_inv) FCt, with alpha applied both inside
Sigma_inv and again as an external multiplier. -/
def specLoretaInverse {n : ℕ}
    (pinv : Matrix (Fin 14) (Fin 14) ℚ → Matrix (Fin 14) (Fin 14) ℚ)
    (F : Matrix (Fin n) (Fin 14) ℚ) (L : Matrix (Fin n) (Fin n) ℚ)
    (alpha beta : ℚ) : Matrix (Fin 14) (Fin n) ℚ :=
  alpha • (pinv (alpha • (F.transpose * (L * F)) + beta • 1) * (L * F).transpose)

/-- Identity stand-in for the abstract pinv routine, used for concrete
evaluations. -/
def pinvId : Matrix (Fin 14) (Fin 14) ℚ → Matrix (Fin 14) (Fin 14) ℚ := id

/-- Concrete raw forward asset on a one-vertex mesh. -/
def rawF1 : Matrix (Fin 14) (Fin 1) ℚ := Matrix.of fun _ _ => 1

/-- Concrete raw coherence asset on a one-vertex mesh. -/
def rawL1 : Matrix (Fin 1) (Fin 1) ℚ := Matrix.of fun _ _ => 1

/-- Concrete environment: all three assets available for emotiv only. -/
def env1 : Env 1 where
  rawForward := fun h => if h = "emotiv" then some rawF1 else none
  rawCoherence := fun h => if h = "emotiv" then some rawL1 else none
  rawInverseCoherence := fun h => if h = "emotiv" then some rawL1 else none

/-- Concrete environment with the same forward assets as `env1` but with
no coherence assets at all. -/
def env1b : Env 1 where
  rawForward := fun h => if h = "emotiv" then some rawF1 else none
  rawCoherence := fun _ => none
  rawInverseCoherence := fun _ => none

/-- Concrete environment with no assets at all. -/
def envEmpty : Env 1 where
  rawForward := fun _ => none
  rawCoherence := fun _ => none
  rawInverseCoherence := fun _ => none

/-- Concrete environment where a raw forward asset exists for the
unsupported hardware string bogus. -/
def envBogus : Env 1 where
  rawForward := fun h => if h = "bogus" then some rawF1 else none
  rawCoherence := fun _ => none
  rawInverseCoherence := fun _ => none

/-- Concrete raw forward asset of the reference mesh size. -/
def rawF1028 : Matrix (Fin 14) (Fin 1028) ℚ := Matrix.of fun _ _ => 0

/-- Concrete raw coherence asset of the reference mesh size. -/
def rawL1028 : Matrix (Fin 1028) (Fin 1028) ℚ := Matrix.of fun _ _ => 0

/-- Concrete environment of the reference mesh size (1028 vertices). -/
def env1028 : Env 1028 where
  rawForward := fun h => if h = "emotiv" then some rawF1028 else none
  rawCoherence := fun h => if h = "emotiv" then some rawL1028 else none
  rawInverseCoherence := fun h => if h = "emotiv" then some rawL1028 else none

/-- The forward model produced by `env1` for emotiv. -/
def Fm1 : LMatrix 1 14 :=
  LMatrix.T ⟨SBS2_ELECTRODES_EMOTIV, defaultLabels 1,
    Matrix.of fun c s => rawF1 c s * 1000000⟩

/-- The coherence matrix produced by `env1` for emotiv. -/
def Lm1 : LMatrix 1 1 := ⟨defaultLabels 1, defaultLabels 1, rawL1⟩

/-- The forward model produced by `env1028` for emotiv. -/
def Fm1028 : LMatrix 1028 14 :=
  LMatrix.T ⟨SBS2_ELECTRODES_EMOTIV, defaultLabels 1028,
    Matrix.of fun c s => rawF1028 c s * 1000000⟩

theorem electrode_names_ok_inv {hw : String} {names : List String}
    (h : electrode_names hw = Except.ok names) :
    (hw = "emotiv" ∧ names = SBS2_ELECTRODES_EMOTIV) ∨
      (hw = "emocap" ∧ names = SBS2_ELECTRODES_EMOCAP) := by
  unfold electrode_names at h
  split_ifs at h with h1 h2
  · injection h with h3
    exact Or.inl ⟨h1, h3.symm⟩
  · injection h with h3
    exact Or.inr ⟨h2, h3.symm⟩

theorem forward_model_eq_ok {n : ℕ} (env : Env n) (hw : String)
    (R : Matrix (Fin 14) (Fin n) ℚ) (names : List String)
    (hR : env.rawForward hw = some R)
    (hN : electrode_names hw = Except.ok names) :
    forward_model env hw =
      Except.ok (LMatrix.T ⟨names, defaultLabels n,
        Matrix.of fun c s => R c s * 1000000⟩) := by
  simp only [forward_model, readAsset, hR, hN]

theorem forward_model_ok_inv {n : ℕ} {env : Env n} {hw : String}
    {Fm : LMatrix n 14} (h : forward_model env hw = Except.ok Fm) :
    ∃ R, env.rawForward hw = some R ∧
      electrode_names hw = Except.ok Fm.columns ∧
      Fm = LMatrix.T ⟨Fm.columns, defaultLabels n,
        Matrix.of fun c s => R c s * 1000000⟩ := by
  cases e1 : env.rawForward hw with
  | none => simp [forward_model, readAsset, e1] at h
  | some R =>
    cases e2 : electrode_names hw with
    | error e => simp [forward_model, readAsset, e1, e2] at h
    | ok names =>
      simp only [forward_model, readAsset, e1, e2] at h
      injection h with h3
      subst h3
      exact ⟨R, rfl, rfl, rfl⟩

theorem spatial_coherence_eq_ok {n : ℕ} (env : Env n) (hw : String)
    (L : Matrix (Fin n) (Fin n) ℚ) (hL : env.rawCoherence hw = some L) :
    spatial_coherence env hw =
      Except.ok ⟨defaultLabels n, defaultLabels n, L⟩ := by
  simp only [spatial_coherence, readAsset, hL]

theorem forward_model_ok_names {n : ℕ} {env : Env n} {hw : String}
    {Fm : LMatrix n 14} (h : forward_model env hw = Except.ok Fm) :
    electrode_names hw = Except.ok Fm.columns :=
  (forward_model_ok_inv h).choose_spec.2.1

theorem estimator_minimumnorm {n : ℕ} (env : Env n)
    (pinv : Matrix (Fin 14) (Fin 14) ℚ → Matrix (Fin 14) (Fin 14) ℚ)
    (hw : String) (alpha beta : ℚ) (F : Matrix (Fin n) (Fin 14) ℚ) :
    estimator env pinv hw "minimumnorm" alpha beta F =
      Except.ok (pinv (F.transpose * F + (beta / alpha) • 1) *
        F.transpose) := rfl

theorem estimator_loreta {n : ℕ} (env : Env n)
    (pinv : Matrix (Fin 14) (Fin 14) ℚ → Matrix (Fin 14) (Fin 14) ℚ)
    (hw : String) (alpha beta : ℚ) (F : Matrix (Fin n) (Fin 14) ℚ)
    (Lm : LMatrix n n) (hL : spatial_coherence env hw = Except.ok Lm) :
    estimator env pinv hw "LORETA" alpha beta F =
      Except.ok (alpha • (pinv (alpha • (F.transpose * (Lm.values * F)) +
        beta • 1) * (Lm.values * F).transpose)) := by
  simp only [estimator, hL, String.reduceEq, if_false, ite_false,
    if_true, ite_true]

theorem estimator_loreta_err {n : ℕ} (env : Env n)
    (pinv : Matrix (Fin 14) (Fin 14) ℚ → Matrix (Fin 14) (Fin 14) ℚ)
    (hw : String) (alpha beta : ℚ) (F : Matrix (Fin n) (Fin 14) ℚ)
    (e : Err) (hL : spatial_coherence env hw = Except.error e) :
    estimator env pinv hw "LORETA" alpha beta F = Except.error e := by
  simp only [estimator, hL, String.reduceEq, if_false, ite_false,
    if_true, ite_true]

theorem estimator_bad_method {n : ℕ} (env : Env n)
    (pinv : Matrix (Fin 14) (Fin 14) ℚ → Matrix (Fin 14) (Fin 14) ℚ)
    (hw method : String) (alpha beta : ℚ) (F : Matrix (Fin n) (Fin 14) ℚ)
    (h1 : method ≠ "minimumnorm") (h2 : method ≠ "LORETA") :
    estimator env pinv hw method alpha beta F =
      Except.error Err.invalidArgument := by
  simp only [estimator, if_neg h1, if_neg h2]

theorem inverse_model_char {n : ℕ} (env : Env n)
    (pinv : Matrix (Fin 14) (Fin 14) ℚ → Matrix (Fin 14) (Fin 14) ℚ)
    (hw method : String) (alpha beta : ℚ) (Fm : LMatrix n 14)
    (inv : Matrix (Fin 14) (Fin n) ℚ)
    (hF : forward_model env hw = Except.ok Fm)
    (hE : estimator env pinv hw method alpha beta Fm.values =
      Except.ok inv) :
    inverse_model env pinv hw method alpha beta =
      Except.ok ⟨Fm.columns, defaultLabels n, inv⟩ := by
  simp only [inverse_model, hF, hE, forward_model_ok_names hF]

theorem inverse_model_forward_err {n : ℕ} (env : Env n)
    (pinv : Matrix (Fin 14) (Fin 14) ℚ → Matrix (Fin 14) (Fin 14) ℚ)
    (hw method : String) (alpha beta : ℚ) (e : Err)
    (hF : forward_model env hw = Except.error e) :
    inverse_model env pinv hw method alpha beta = Except.error e := by
  simp only [inverse_model, hF]

theorem inverse_model_estimator_err {n : ℕ} (env : Env n)
    (pinv : Matrix (Fin 14) (Fin 14) ℚ → Matrix (Fin 14) (Fin 14) ℚ)
    (hw method : String) (alpha beta : ℚ) (Fm : LMatrix n 14) (e : Err)
    (hF : forward_model env hw = Except.ok Fm)
    (hE : estimator env pinv hw method alpha beta Fm.values =
      Except.error e) :
    inverse_model env pinv hw method alpha beta = Except.error e := by
  simp only [inverse_model, hF, hE]

/-- C1: For every supported hardware (assets present) and scalars
alpha > 0, beta >= 0, the LORETA inverse model equals
alpha pinv(alpha (Ft (L F)) + beta I) (L F)t, where F = forward_model
(sources x channels), L = spatial_coherence (sources x sources) and I is
the channel identity; alpha is applied both inside the Sigma_inv
construction and again as an external multiplier. -/
theorem C1_loreta_formula {n : ℕ} (env : Env n)
    (pinv : Matrix (Fin 14) (Fin 14) ℚ → Matrix (Fin 14) (Fin 14) ℚ)
    (hw : String) (alpha beta : ℚ) (Fm : LMatrix n 14) (Lm : LMatrix n n)
    (hF : forward_model env hw = Except.ok Fm)
    (hL : spatial_coherence env hw = Except.ok Lm)
    (halpha : 0 < alpha) (hbeta : 0 ≤ beta) :
    Except.map LMatrix.values
        (inverse_model env pinv hw "LORETA" alpha beta) =
      Except.ok (specLoretaInverse pinv Fm.values Lm.values alpha beta) := by
  rw [inverse_model_char env pinv hw "LORETA" alpha beta Fm _ hF
    (estimator_loreta env pinv hw alpha beta Fm.values Lm hL)]
  rfl

/-- C1 witness: concrete evaluation on the one-vertex environment. -/
theorem C1_loreta_formula_witness :
    (0 : ℚ) < 1 ∧ (0 : ℚ) ≤ 0 ∧
    Except.map LMatrix.values
        (inverse_model env1 pinvId "emotiv" "LORETA" 1 0) =
      Except.ok (specLoretaInverse pinvId Fm1.values Lm1.values 1 0) :=
  ⟨one_pos, le_refl 0,
    C1_loreta_formula env1 pinvId "emotiv" 1 0 Fm1 Lm1 rfl rfl
      one_pos (le_refl 0)⟩

/-- C2: For every supported hardware (asset present) and scalars
alpha > 0, beta >= 0, the minimumnorm inverse model equals
pinv(Ft F + (beta/alpha) I) Ft; the spatial coherence term degenerates to
the identity. -/
theorem C2_minimumnorm_formula {n : ℕ} (env : Env n)
    (pinv : Matrix (Fin 14) (Fin 14) ℚ → Matrix (Fin 14) (Fin 14) ℚ)
    (hw : String) (alpha beta : ℚ) (Fm : LMatrix n 14)
    (hF : forward_model env hw = Except.ok Fm)
    (halpha : 0 < alpha) (hbeta : 0 ≤ beta) :
    Except.map LMatrix.values
        (inverse_model env pinv hw "minimumnorm" alpha beta) =
      Except.ok (specMinimumNormInverse pinv Fm.values alpha beta) := by
  rw [inverse_model_char env pinv hw "minimumnorm" alpha beta Fm _ hF
    (estimator_minimumnorm env pinv hw alpha beta Fm.values)]
  rfl

/-- C2 witness: concrete evaluation on the one-vertex environment. -/
theorem C2_minimumnorm_formula_witness :
    (0 : ℚ) < 1 ∧ (0 : ℚ) ≤ 0 ∧
    Except.map LMatrix.values
        (inverse_model env1 pinvId "emotiv" "minimumnorm" 1 0) =
      Except.ok (specMinimumNormInverse pinvId Fm1.values 1 0) :=
  ⟨one_pos, le_refl 0,
    C2_minimumnorm_formula env1 pinvId "emotiv" 1 0 Fm1 rfl
      one_pos (le_refl 0)⟩

/-- C3: For every supported hardware with its raw channels x sources asset
present, forward_model labels the raw rows with the electrode names,
multiplies every element by 1000000 exactly once, and transposes, so the
result is sources x channels with columns labeled by electrode name in
catalog order. -/
theorem C3_forward_model_construction {n : ℕ} (env : Env n) (hw : String)
    (R : Matrix (Fin 14) (Fin n) ℚ) (names : List String)
    (hR : env.rawForward hw = some R)
    (hN : electrode_names hw = Except.ok names) :
    forward_model env hw =
      Except.ok (LMatrix.T ⟨names, defaultLabels n,
        Matrix.of fun c s => R c s * 1000000⟩) ∧
    ∀ Fm : LMatrix n 14, forward_model env hw = Except.ok Fm →
      Fm.columns = names ∧ Fm.shape = (n, 14) ∧
      ∀ s c, Fm.values s c = R c s * 1000000 := by
  have h := forward_model_eq_ok env hw R names hR hN
  refine ⟨h, fun Fm hFm => ?_⟩
  rw [h] at hFm
  injection hFm with h3
  subst h3
  exact ⟨rfl, rfl, fun s c => rfl⟩

/-- C3 witness: concrete evaluation on the one-vertex environment. -/
theorem C3_forward_model_construction_witness :
    forward_model env1 "emotiv" =
      Except.ok (LMatrix.T ⟨SBS2_ELECTRODES_EMOTIV, defaultLabels 1,
        Matrix.of fun c s => rawF1 c s * 1000000⟩) :=
  (C3_forward_model_construction env1 "emotiv" rawF1
    SBS2_ELECTRODES_EMOTIV rfl rfl).1

/-- C4 counterexample: for the unsupported hardware string bogus with no
raw asset on record (the situation of the reference dataset, which has no
directory for invalid hardware), forward_model fails with dataUnavailable,
not with invalidArgument as the claim states: the asset read at sbs2.py
line 175 happens before the electrode_names call at line 176. -/
theorem C4_counterexample :
    ("bogus" ≠ "emotiv" ∧ "bogus" ≠ "emocap") ∧
    forward_model envEmpty "bogus" = Except.error Err.dataUnavailable ∧
    Err.dataUnavailable ≠ Err.invalidArgument :=
  ⟨⟨by decide, by decide⟩, rfl, by decide⟩

/-- C4 (amended): for hardware outside emotiv and emocap, forward_model
fails with invalidArgument (delegated to electrode_names) when the raw
asset is present, and with dataUnavailable when the raw asset is missing,
because the asset read precedes the catalog lookup; a missing raw asset
for any hardware, valid ones included, is surfaced as dataUnavailable. -/
theorem C4_forward_model_errors {n : ℕ} (env : Env n) (hw : String) :
    (env.rawForward hw = none →
      forward_model env hw = Except.error Err.dataUnavailable) ∧
    (∀ R, env.rawForward hw = some R → hw ≠ "emotiv" → hw ≠ "emocap" →
      forward_model env hw = Except.error Err.invalidArgument) := by
  constructor
  · intro h
    simp only [forward_model, readAsset, h]
  · intro R h h1 h2
    simp only [forward_model, readAsset, h, electrode_names,
      if_neg h1, if_neg h2]

/-- C4 witness: the amended statement evaluated concretely, with a valid
hardware missing its asset and an invalid hardware whose asset exists. -/
theorem C4_forward_model_errors_witness :
    forward_model envEmpty "emotiv" = Except.error Err.dataUnavailable ∧
    forward_model envBogus "bogus" = Except.error Err.invalidArgument :=
  ⟨(C4_forward_model_errors envEmpty "emotiv").1 rfl,
   (C4_forward_model_errors envBogus "bogus").2 rawF1 rfl
     (by decide) (by decide)⟩

/-- C5: On the reference dataset (1028 mesh vertices), for every supported
hardware the forward model has shape 1028 x 14 with 14 the electrode-name
count, the two coherence matrices are square of dimension 1028 equal to the
forward-model row count, and every inverse model has shape 14 x 1028. -/
theorem C5_shape_invariants (env : Env 1028)
    (pinv : Matrix (Fin 14) (Fin 14) ℚ → Matrix (Fin 14) (Fin 14) ℚ)
    (hw method : String) (alpha beta : ℚ) (Fm : LMatrix 1028 14)
    (hF : forward_model env hw = Except.ok Fm) :
    Fm.shape = (1028, 14) ∧
    (∀ names, electrode_names hw = Except.ok names → names.length = 14) ∧
    (∀ Cm : LMatrix 1028 1028, spatial_coherence env hw = Except.ok Cm →
      Cm.shape = (1028, 1028) ∧ Cm.shape.1 = Fm.shape.1) ∧
    (∀ Km : LMatrix 1028 1028,
      inverse_spatial_coherence env hw = Except.ok Km →
      Km.shape = (1028, 1028)) ∧
    (∀ Im : LMatrix 14 1028,
      inverse_model env pinv hw method alpha beta = Except.ok Im →
      Im.shape = (14, 1028)) := by
  refine ⟨rfl, ?_, fun Cm _ => ⟨rfl, rfl⟩, fun Km _ => rfl,
    fun Im _ => rfl⟩
  intro names hN
  rcases electrode_names_ok_inv hN with ⟨_, h⟩ | ⟨_, h⟩ <;> subst h <;> rfl

/-- C5 witness: concrete evaluation on the 1028-vertex environment. -/
theorem C5_shape_invariants_witness :
    Fm1028.shape = (1028, 14) ∧ SBS2_ELECTRODES_EMOTIV.length = 14 :=
  ⟨(C5_shape_invariants env1028 pinvId "emotiv" "LORETA" 1 0 Fm1028
      rfl).1,
   (C5_shape_invariants env1028 pinvId "emotiv" "LORETA" 1 0 Fm1028
      rfl).2.1 SBS2_ELECTRODES_EMOTIV rfl⟩

/-- C6: Whenever inverse_model returns a matrix, its row labels equal the
electrode names of the hardware, element for element in order. -/
theorem C6_row_labels {n : ℕ} (env : Env n)
    (pinv : Matrix (Fin 14) (Fin 14) ℚ → Matrix (Fin 14) (Fin 14) ℚ)
    (hw method : String) (alpha beta : ℚ) (Im : LMatrix 14 n)
    (names : List String)
    (hI : inverse_model env pinv hw method alpha beta = Except.ok Im)
    (hN : electrode_names hw = Except.ok names) :
    Im.index = names := by
  cases hFm : forward_model env hw with
  | error e => simp [inverse_model, hFm] at hI
  | ok Fm =>
    cases hE : estimator env pinv hw method alpha beta Fm.values with
    | error e => simp [inverse_model, hFm, hE] at hI
    | ok inv =>
      simp only [inverse_model, hFm, hE, hN] at hI
      injection hI with h3
      subst h3
      rfl

/-- The inverse model produced by `env1` for emotiv with minimumnorm. -/
def Im1 : LMatrix 14 1 :=
  ⟨SBS2_ELECTRODES_EMOTIV, defaultLabels 1,
    pinvId (Fm1.values.transpose * Fm1.values + ((0 : ℚ) / 1) • 1) *
      Fm1.values.transpose⟩

/-- C6 witness: concrete evaluation on the one-vertex environment. -/
theorem C6_row_labels_witness : Im1.index = SBS2_ELECTRODES_EMOTIV :=
  C6_row_labels env1 pinvId "emotiv" "minimumnorm" 1 0 Im1
    SBS2_ELECTRODES_EMOTIV rfl rfl

/-- C7: electrode_names returns the fixed hardcoded 14-element sequences
for emotiv and emocap (two distinct sequences) and fails with
invalidArgument exactly for every other hardware value. -/
theorem C7_electrode_names_spec (hw : String) :
    (hw = "emotiv" →
      electrode_names hw = Except.ok SBS2_ELECTRODES_EMOTIV) ∧
    (hw = "emocap" →
      electrode_names hw = Except.ok SBS2_ELECTRODES_EMOCAP) ∧
    (hw ≠ "emotiv" → hw ≠ "emocap" →
      electrode_names hw = Except.error Err.invalidArgument) ∧
    SBS2_ELECTRODES_EMOTIV.length = 14 ∧
    SBS2_ELECTRODES_EMOCAP.length = 14 ∧
    SBS2_ELECTRODES_EMOTIV ≠ SBS2_ELECTRODES_EMOCAP ∧
    ((∃ e, electrode_names hw = Except.error e) ↔
      ¬(hw = "emotiv" ∨ hw = "emocap")) := by
  refine ⟨?_, ?_, ?_, rfl, rfl, by decide, ?_, ?_⟩
  · intro h; subst h; rfl
  · intro h; subst h; rfl
  · intro h1 h2
    simp only [electrode_names, if_neg h1, if_neg h2]
  · rintro ⟨e, he⟩ h
    cases h with
    | inl h => subst h; simp [electrode_names] at he
    | inr h => subst h; simp [electrode_names, String.reduceEq] at he
  · intro h
    push_neg at h
    exact ⟨Err.invalidArgument,
      by simp only [electrode_names, if_neg h.1, if_neg h.2]⟩

/-- C7 witness: concrete evaluation at a supported and an unsupported
hardware value. -/
theorem C7_electrode_names_spec_witness :
    electrode_names "emotiv" = Except.ok SBS2_ELECTRODES_EMOTIV ∧
    electrode_names "bogus" = Except.error Err.invalidArgument :=
  ⟨(C7_electrode_names_spec "emotiv").1 rfl,
   (C7_electrode_names_spec "bogus").2.2.1 (by decide) (by decide)⟩

/-- C8: With the forward model obtainable, any method outside minimumnorm
and LORETA makes inverse_model fail with invalidArgument; a forward-model
error propagates unchanged to inverse_model, and in the LORETA branch a
spatial-coherence error propagates unchanged. -/
theorem C8_method_errors {n : ℕ} (env : Env n)
    (pinv : Matrix (Fin 14) (Fin 14) ℚ → Matrix (Fin 14) (Fin 14) ℚ)
    (hw method : String) (alpha beta : ℚ) :
    (∀ Fm : LMatrix n 14, forward_model env hw = Except.ok Fm →
      method ≠ "minimumnorm" → method ≠ "LORETA" →
      inverse_model env pinv hw method alpha beta =
        Except.error Err.invalidArgument) ∧
    (∀ e, forward_model env hw = Except.error e →
      inverse_model env pinv hw method alpha beta = Except.error e) ∧
    (∀ (Fm : LMatrix n 14) (e : Err),
      forward_model env hw = Except.ok Fm →
      spatial_coherence env hw = Except.error e →
      inverse_model env pinv hw "LORETA" alpha beta = Except.error e) := by
  refine ⟨fun Fm hF h1 h2 => ?_,
    fun e hF => inverse_model_forward_err env pinv hw method alpha beta e hF,
    fun Fm e hF hL => ?_⟩
  · exact inverse_model_estimator_err env pinv hw method alpha beta Fm
      Err.invalidArgument hF
      (estimator_bad_method env pinv hw method alpha beta Fm.values h1 h2)
  · exact inverse_model_estimator_err env pinv hw "LORETA" alpha beta Fm
      e hF (estimator_loreta_err env pinv hw alpha beta Fm.values e hL)

/-- C8 witness: concrete evaluations of the three error behaviors. -/
theorem C8_method_errors_witness :
    inverse_model env1 pinvId "emotiv" "bogus" 1 0 =
      Except.error Err.invalidArgument ∧
    inverse_model envEmpty pinvId "emotiv" "minimumnorm" 1 0 =
      Except.error Err.dataUnavailable ∧
    inverse_model env1b pinvId "emotiv" "LORETA" 1 0 =
      Except.error Err.dataUnavailable :=
  ⟨(C8_method_errors env1 pinvId "emotiv" "bogus" 1 0).1 Fm1 rfl
      (by decide) (by decide),
   (C8_method_errors envEmpty pinvId "emotiv" "minimumnorm" 1 0).2.1
      Err.dataUnavailable rfl,
   (C8_method_errors env1b pinvId "emotiv" "LORETA" 1 0).2.2 Fm1
      Err.dataUnavailable rfl rfl⟩

/-- C10: The minimumnorm inverse model does not depend on the coherence
assets: two environments agreeing on the raw forward assets, however their
coherence assets differ or are absent, produce the same result, since the
coherence matrix is read only in the LORETA branch. -/
theorem C10_minimumnorm_ignores_coherence {n : ℕ} (envA envB : Env n)
    (pinv : Matrix (Fin 14) (Fin 14) ℚ → Matrix (Fin 14) (Fin 14) ℚ)
    (hw : String) (alpha beta : ℚ)
    (h : envA.rawForward = envB.rawForward) :
    inverse_model envA pinv hw "minimumnorm" alpha beta =
      inverse_model envB pinv hw "minimumnorm" alpha beta := by
  have hF : forward_model envA hw = forward_model envB hw := by
    unfold forward_model
    rw [h]
  have hE : ∀ F : Matrix (Fin n) (Fin 14) ℚ,
      estimator envA pinv hw "minimumnorm" alpha beta F =
        estimator envB pinv hw "minimumnorm" alpha beta F := fun F => rfl
  unfold inverse_model
  rw [hF]
  simp only [hE]

/-- C10 witness: concrete evaluation on two one-vertex environments with
identical forward assets, where one has no coherence assets at all. -/
theorem C10_minimumnorm_ignores_coherence_witness :
    inverse_model env1 pinvId "emotiv" "minimumnorm" 1 0 =
      inverse_model env1b pinvId "emotiv" "minimumnorm" 1 0 :=
  C10_minimumnorm_ignores_coherence env1 env1b pinvId "emotiv" 1 0 rfl
